import Mathlib

/-!
Shallow embedding of the ttac_r booking/wallet/resale core
(src/ttac_project/ttac: services/booking.py, services/wallet.py,
services/resale.py, views.py, utils.py, models.py).

Conventions of the embedding:
* timestamps are integers counting seconds; `timedelta(minutes=m)` is `m * 60`;
* Django rows become Lean structures; a table keyed by primary key becomes a
  function `Nat → Option Row`; the per-show seat table is a `List Seat`;
* every service function becomes a state transformer
  `State → State × Except Err α`: a `ValidationError` raise is `Except.error`,
  and the state component carries the row writes executed before the raise
  (writes are modelled as persisting in program order);
* the external Razorpay gateway is a black box: order creation takes the
  fresh order reference as an argument, and signature verification is an
  oracle `sigOk : paymentRef → orderRef → signature → Bool`;
* status fields are the exact strings used by the source.
-/

namespace TTAC

/-- The distinct `ValidationError` / lookup-failure sites of the source,
one constructor per message. -/
inductive Err
  | invalidRequest      -- "No seats selected."
  | unknownSeat         -- "Invalid seat(s): ..." / "Invalid seat selection."
  | seatUnavailable     -- "Some seats are already booked."
  | seatLockedByOther   -- "Seat locked by another user: ..."
  | lockNotHeld         -- "Seats are not locked by you (or lock expired)."
  | lockExpired         -- "Seat lock expired. Please select seats again."
  | bookingClosed       -- "Booking closed for this show (30 mins before showtime)."
  | notPending          -- "Ticket is not pending."
  | notPayable          -- "Ticket is not in payable state."
  | orderMismatch       -- "Order ID mismatch. Payment rejected."
  | signatureInvalid    -- "... verification failed."
  | insufficientFunds   -- "Not enough wallet balance"
  | resaleWindowClosed  -- "Transfer not allowed within 3 hours before showtime." / "Resale closed ..."
  | alreadyListed       -- "Ticket already listed."
  | alreadyTransferred  -- "Ticket already transferred once. Cannot resell again."
  | cannotBuyOwn        -- "You cannot buy your own ticket."
  | notBooked           -- "Only BOOKED tickets can be transferred."
  | minTopup            -- "Minimum top-up amount is Rs.10"
  | gatewayFailure      -- "Razorpay order creation failed: ..."
  | notFound            -- Django DoesNotExist on a .get lookup
  deriving DecidableEq

/-- booking.py line 13: `LOCK_MINS = 5`. -/
def LOCK_MINS : Int := 5

/-- booking.py line 14: `BOOKING_CLOSE_MINS = 30`. -/
def BOOKING_CLOSE_MINS : Int := 30

/-- resale.py line 8: `RESALE_CLOSE_HOURS = 3`. -/
def RESALE_CLOSE_HOURS : Int := 3

/-- models.py `Seat`: one row of the per-show seat table. -/
structure Seat where
  seat_code : String
  is_booked : Bool
  locked_by : Option Nat
  locked_at : Option Int
  deriving DecidableEq

/-- booking.py `_lock_expiry_time(now)` = `now - timedelta(minutes=LOCK_MINS)`. -/
def lock_expiry_time (now : Int) : Int := now - LOCK_MINS * 60

/-- The row filter of booking.py `release_expired_locks` (and of the identical
utils.py `release_expired_seat_locks`): not booked, lock timestamp present and
older than the expiry threshold. -/
def lock_is_stale (now : Int) (s : Seat) : Bool :=
  !s.is_booked &&
    (match s.locked_at with
     | some t => decide (t < lock_expiry_time now)
     | none => false)

/-- booking.py `release_expired_locks(show, now)`: clear `locked_by`/`locked_at`
on every stale-locked, unbooked seat of the show. -/
def release_expired_locks (seats : List Seat) (now : Int) : List Seat :=
  seats.map (fun s =>
    if lock_is_stale now s then { s with locked_by := none, locked_at := none } else s)

/-- booking.py lines 89-93: the per-seat rejection test of `lock_seats` —
locked by a different user and that lock is still valid. -/
def locked_by_other (user : Nat) (now : Int) (s : Seat) : Bool :=
  match s.locked_by, s.locked_at with
  | some u, some t => (u != user) && decide (t > lock_expiry_time now)
  | some _, none => false
  | none, _ => false

/-- models.py `Show`: the scheduling fields read by the services. -/
structure MovieShow where
  show_time : Int
  price_per_seat : Int
  deriving DecidableEq

/-- models.py `Ticket`: the fields read or written by the services.
`seat_codes` stands for the many-to-many `seats` relation. -/
structure Ticket where
  id : Nat
  user : Nat
  seat_codes : List String
  total_price : Int
  status : String
  is_transferred : Bool
  deriving DecidableEq

/-- models.py `Payment` (also the shape of `ResalePayment`). -/
structure Payment where
  razorpay_order_id : String
  razorpay_payment_id : Option String
  razorpay_signature : Option String
  amount : Int
  status : String
  deriving DecidableEq

/-- The durable state touched by the booking services, for a single show:
the show row, its seat table, the ticket table keyed by ticket id and the
payment table keyed by ticket id (`Payment.ticket` is one-to-one). -/
structure World where
  show_row : MovieShow
  seats : List Seat
  tickets : Nat → Option Ticket
  payments : Nat → Option Payment
  next_ticket_id : Nat

/-- `Ticket.objects.get(id=ticket_id, user=user)`. -/
def find_ticket (w : World) (ticket_id user : Nat) : Option Ticket :=
  match w.tickets ticket_id with
  | some t => if t.user = user then some t else none
  | none => none

/-- Write the ticket row with primary key `ticket_id`. -/
def set_ticket (w : World) (ticket_id : Nat) (t : Ticket) : World :=
  { w with tickets := fun i => if i = ticket_id then some t else w.tickets i }

/-- Write the payment row keyed by `ticket_id` (covers both branches of
`Payment.objects.update_or_create`, which replaces the existing row or
inserts one). -/
def set_payment (w : World) (ticket_id : Nat) (p : Payment) : World :=
  { w with payments := fun i => if i = ticket_id then some p else w.payments i }

/-- booking.py `lock_seats(user, show_id, seat_codes)` at time `now`.
Returns the locked seat rows. -/
def lock_seats (user : Nat) (w : World) (seat_codes : List String) (now : Int) :
    World × Except Err (List Seat) :=
  if seat_codes.isEmpty then (w, .error .invalidRequest) else
  let codes := seat_codes.eraseDups
  if w.show_row.show_time < now + BOOKING_CLOSE_MINS * 60 then (w, .error .bookingClosed) else
  let seats0 := release_expired_locks w.seats now
  let w1 := { w with seats := seats0 }
  let sel := seats0.filter (fun s => codes.contains s.seat_code)
  if sel.length ≠ codes.length then (w1, .error .unknownSeat) else
  if sel.any (fun s => s.is_booked) then (w1, .error .seatUnavailable) else
  if sel.any (fun s => locked_by_other user now s) then (w1, .error .seatLockedByOther) else
  let seats1 := seats0.map (fun s =>
    if codes.contains s.seat_code then { s with locked_by := some user, locked_at := some now } else s)
  ({ w1 with seats := seats1 }, .ok (seats1.filter (fun s => codes.contains s.seat_code)))

/-- booking.py lines 138-142: the per-seat rejection tests of
`create_ticket_pending`, in source order (first failing seat wins). -/
def reserve_seat_error (user : Nat) (now : Int) (s : Seat) : Option Err :=
  if s.locked_by ≠ some user then some .lockNotHeld
  else match s.locked_at with
    | none => some .lockExpired
    | some t => if t < lock_expiry_time now then some .lockExpired else none

/-- booking.py `create_ticket_pending(user, show_id, seat_codes)` at time `now`.
Note: contains no booking-close cutoff test. -/
def create_ticket_pending (user : Nat) (w : World) (seat_codes : List String) (now : Int) :
    World × Except Err Ticket :=
  if seat_codes.isEmpty then (w, .error .invalidRequest) else
  let codes := seat_codes.eraseDups
  let seats0 := release_expired_locks w.seats now
  let w1 := { w with seats := seats0 }
  let sel := seats0.filter (fun s => codes.contains s.seat_code)
  if sel.length ≠ codes.length then (w1, .error .unknownSeat) else
  match sel.findSome? (fun s => reserve_seat_error user now s) with
  | some e => (w1, .error e)
  | none =>
    let total := (sel.length : Int) * w.show_row.price_per_seat
    let ticket : Ticket :=
      { id := w.next_ticket_id, user := user, seat_codes := sel.map (fun s => s.seat_code), total_price := total, status := "PENDING", is_transferred := false }
    ({ set_ticket w1 w.next_ticket_id ticket with next_ticket_id := w.next_ticket_id + 1 },
     .ok ticket)

/-- booking.py `confirm_ticket_booking(ticket_id, user)`. -/
def confirm_ticket_booking (w : World) (ticket_id user : Nat) :
    World × Except Err Ticket :=
  match find_ticket w ticket_id user with
  | none => (w, .error .notFound)
  | some t =>
    if t.status = "BOOKED" then (w, .ok t)
    else if t.status ≠ "PENDING" then (w, .error .notPayable)
    else
      let seats1 := w.seats.map (fun s =>
        if t.seat_codes.contains s.seat_code then
          { s with is_booked := true, locked_by := none, locked_at := none }
        else s)
      let t1 := { t with status := "BOOKED" }
      (set_ticket { w with seats := seats1 } ticket_id t1, .ok t1)

/-- booking.py `create_booking_razorpay_order(ticket_id, user)`; the gateway
order reference it minted is the argument `new_order_id`.
`update_or_create` keeps the old `razorpay_payment_id`/`razorpay_signature`
of an existing row and resets order id, amount and status. -/
def create_booking_razorpay_order (w : World) (ticket_id user : Nat) (new_order_id : String) :
    World × Except Err Payment :=
  match find_ticket w ticket_id user with
  | none => (w, .error .notFound)
  | some t =>
    if t.status ≠ "PENDING" then (w, .error .notPending)
    else
      let pay : Payment :=
        match w.payments ticket_id with
        | some p => { p with razorpay_order_id := new_order_id, amount := t.total_price, status := "CREATED" }
        | none => { razorpay_order_id := new_order_id, razorpay_payment_id := none, razorpay_signature := none, amount := t.total_price, status := "CREATED" }
      (set_payment w ticket_id pay, .ok pay)

/-- booking.py `verify_booking_payment(...)`; `sigOk` is the gateway's
`verify_payment_signature` boundary. -/
def verify_booking_payment (sigOk : String → String → String → Bool)
    (w : World) (ticket_id user : Nat)
    (razorpay_payment_id razorpay_order_id razorpay_signature : String) :
    World × Except Err Payment :=
  match find_ticket w ticket_id user with
  | none => (w, .error .notFound)
  | some t =>
    match w.payments ticket_id with
    | none => (w, .error .notFound)
    | some pay =>
      if pay.status = "PAID" then (w, .ok pay)
      else if pay.razorpay_order_id ≠ razorpay_order_id then
        (set_payment w ticket_id { pay with status := "FAILED" }, .error .orderMismatch)
      else if !(sigOk razorpay_payment_id razorpay_order_id razorpay_signature) then
        (set_payment w ticket_id { pay with status := "FAILED" }, .error .signatureInvalid)
      else
        let pay1 : Payment := { pay with razorpay_payment_id := some razorpay_payment_id, razorpay_signature := some razorpay_signature, status := "PAID" }
        let w1 := set_payment w ticket_id pay1
        match confirm_ticket_booking w1 t.id user with
        | (w2, .error e) => (w2, .error e)
        | (w2, .ok _) => (w2, .ok pay1)

/-! ## Wallet ledger (services/wallet.py, views.py `wallet_add_money`) -/

/-- wallet.py `wallet_pay(user, amount)` on the user's balance: conditional
atomic debit. Returns the new balance. -/
def wallet_pay (balance amount : Int) : Except Err Int :=
  if balance < amount then .error .insufficientFunds else .ok (balance - amount)

/-- A debit (`wallet_pay`) or a credit (`wallet.balance += amount`) event
against one user's wallet. -/
inductive WalletOp
  | debit (amount : Int)
  | credit (amount : Int)

/-- Apply one wallet event; a failing debit leaves the balance unchanged
(the raise aborts the caller's request, not the ledger). -/
def apply_wallet_op (balance : Int) : WalletOp → Int
  | .debit a =>
    match wallet_pay balance a with
    | .ok b => b
    | .error _ => balance
  | .credit a => balance + a

/-- Run a sequence of wallet events. -/
def run_wallet_ops (balance : Int) (ops : List WalletOp) : Int :=
  ops.foldl apply_wallet_op balance

/-- models.py `WalletPayment`. -/
structure WalletPayment where
  id : Nat
  user : Nat
  razorpay_order_id : String
  razorpay_payment_id : Option String
  razorpay_signature : Option String
  amount : Int
  status : String
  deriving DecidableEq

/-- Durable state of the wallet top-up flow for one user: the WalletPayment
table, the user's balance, a counter of external gateway order-creation
calls and the next WalletPayment primary key. -/
structure TopupWorld where
  wallet_payments : Nat → Option WalletPayment
  balance : Int
  gateway_orders : Nat
  next_wp_id : Nat

/-- wallet.py `create_wallet_topup_order(user, amount)`; `new_order_id` is
the order reference minted by the gateway call. -/
def create_wallet_topup_order (st : TopupWorld) (user : Nat) (amount : Int)
    (new_order_id : String) : TopupWorld × Except Err WalletPayment :=
  if amount < 10 then (st, .error .minTopup) else
  let wp : WalletPayment :=
    { id := st.next_wp_id, user := user, razorpay_order_id := new_order_id, razorpay_payment_id := none, razorpay_signature := none, amount := amount, status := "CREATED" }
  ({ st with wallet_payments := fun i => if i = st.next_wp_id then some wp else st.wallet_payments i, gateway_orders := st.gateway_orders + 1, next_wp_id := st.next_wp_id + 1 },
   .ok wp)

/-- views.py `wallet_add_money` POST branch: the same minimum-amount guard
before the gateway call and row creation. -/
def wallet_add_money (st : TopupWorld) (user : Nat) (amount : Int)
    (new_order_id : String) : TopupWorld × Except Err WalletPayment :=
  if amount < 10 then (st, .error .minTopup) else
  create_wallet_topup_order st user amount new_order_id

/-- `WalletPayment.objects.get(id=payment_id, user=user)`. -/
def find_wp (st : TopupWorld) (payment_id user : Nat) : Option WalletPayment :=
  match st.wallet_payments payment_id with
  | some wp => if wp.user = user then some wp else none
  | none => none

/-- Write the WalletPayment row with primary key `payment_id`. -/
def set_wp (st : TopupWorld) (payment_id : Nat) (wp : WalletPayment) : TopupWorld :=
  { st with wallet_payments := fun i => if i = payment_id then some wp else st.wallet_payments i }

/-- wallet.py `verify_wallet_topup(...)`. Note: the supplied
`razorpay_order_id` is never compared with the stored one; it is only fed
to the signature oracle. -/
def verify_wallet_topup (sigOk : String → String → String → Bool)
    (st : TopupWorld) (payment_id user : Nat)
    (razorpay_payment_id razorpay_order_id razorpay_signature : String) :
    TopupWorld × Except Err WalletPayment :=
  match find_wp st payment_id user with
  | none => (st, .error .notFound)
  | some wp =>
    if wp.status = "PAID" then (st, .ok wp)
    else if !(sigOk razorpay_payment_id razorpay_order_id razorpay_signature) then
      (set_wp st payment_id { wp with status := "FAILED" }, .error .signatureInvalid)
    else
      let wp1 : WalletPayment := { wp with razorpay_payment_id := some razorpay_payment_id, razorpay_signature := some razorpay_signature, status := "PAID" }
      let st1 := set_wp st payment_id wp1
      ({ st1 with balance := st1.balance + wp.amount }, .ok wp1)

/-! ## Resale transfer engine (services/resale.py) -/

/-- models.py `TicketResale`. -/
structure ResaleListing where
  ticket_id : Nat
  seller : Nat
  buyer : Option Nat
  resale_price : Int
  is_sold : Bool
  deriving DecidableEq

/-- Durable state of the resale flow for one show: ticket table, listing
table (as an association list keyed by listing id, so that the
`filter(ticket=...).exists()` check is expressible), resale-payment table
keyed by listing id, and per-user wallet balances. -/
structure ResaleWorld where
  show_time : Int
  tickets : Nat → Option Ticket
  resales : List (Nat × ResaleListing)
  resale_payments : Nat → Option Payment
  wallets : Nat → Int
  next_resale_id : Nat

/-- resale.py `resale_expired(ticket)`: now is at or past
`show_time - 3 hours`. -/
def resale_expired (show_time now : Int) : Bool :=
  decide (now ≥ show_time - RESALE_CLOSE_HOURS * 3600)

/-- `TicketResale.objects.get(id=resale_id, is_sold=False)`. -/
def find_resale (rw : ResaleWorld) (resale_id : Nat) : Option ResaleListing :=
  match (rw.resales.find? (fun q => q.1 = resale_id)).map (fun q => q.2) with
  | some r => if r.is_sold then none else some r
  | none => none

/-- resale.py `list_ticket_for_resale(user, ticket_id)` at time `now`. -/
def list_ticket_for_resale (rw : ResaleWorld) (user ticket_id : Nat) (now : Int) :
    ResaleWorld × Except Err ResaleListing :=
  match (match rw.tickets ticket_id with
         | some t => if t.user = user then some t else none
         | none => none) with
  | none => (rw, .error .notFound)
  | some t =>
    if t.status ≠ "BOOKED" then (rw, .error .notBooked)
    else if t.is_transferred then (rw, .error .alreadyTransferred)
    else if resale_expired rw.show_time now then (rw, .error .resaleWindowClosed)
    else if rw.resales.any (fun q => q.2.ticket_id = ticket_id) then (rw, .error .alreadyListed)
    else
      let listing : ResaleListing :=
        { ticket_id := ticket_id, seller := user, buyer := none, resale_price := t.total_price, is_sold := false }
      ({ rw with resales := rw.resales ++ [(rw.next_resale_id, listing)], next_resale_id := rw.next_resale_id + 1 },
       .ok listing)

/-- resale.py `verify_resale_buy_payment(user, resale_id, ...)` at time `now`.
Note: there is no already-PAID early return, and the supplied order
reference is never compared with the stored one. -/
def verify_resale_buy_payment (sigOk : String → String → String → Bool)
    (rw : ResaleWorld) (user resale_id : Nat)
    (razorpay_payment_id razorpay_order_id razorpay_signature : String) (now : Int) :
    ResaleWorld × Except Err Payment :=
  match find_resale rw resale_id with
  | none => (rw, .error .notFound)
  | some resale =>
    match rw.resale_payments resale_id with
    | none => (rw, .error .notFound)
    | some rp =>
      if resale.seller = user then (rw, .error .cannotBuyOwn)
      else if resale_expired rw.show_time now then
        ({ rw with resales := rw.resales.filter (fun q => q.1 ≠ resale_id) },
         .error .resaleWindowClosed)
      else if !(sigOk razorpay_payment_id razorpay_order_id razorpay_signature) then
        ({ rw with resale_payments := (fun i =>
             if i = resale_id then some ({ rp with status := "FAILED" })
             else rw.resale_payments i) },
         .error .signatureInvalid)
      else
        let rp1 : Payment := { rp with razorpay_payment_id := some razorpay_payment_id, razorpay_signature := some razorpay_signature, status := "PAID" }
        let rw1 := { rw with resale_payments := (fun i =>
          if i = resale_id then some rp1 else rw.resale_payments i) }
        -- transfer the ticket to the buyer
        let rw2 := match rw1.tickets resale.ticket_id with
          | some t => { rw1 with tickets := (fun i =>
              if i = resale.ticket_id then some ({ t with user := user, is_transferred := true })
              else rw1.tickets i) }
          | none => rw1
        -- mark the listing sold with the buyer recorded
        let rw3 := { rw2 with resales := rw2.resales.map (fun (q : Nat × ResaleListing) =>
          if q.1 = resale_id then (q.1, { q.2 with buyer := some user, is_sold := true }) else q) }
        -- credit the seller's wallet
        let rw4 := { rw3 with wallets := (fun u =>
          if u = resale.seller then rw3.wallets u + resale.resale_price else rw3.wallets u) }
        (rw4, .ok rp1)

/-! ## The seat-selection view (views.py `seat_select`, POST branch) -/

/-- Durable state touched by the `seat_select` view for one show and the
requesting user: show row, seat table, ticket table, payment table, the
user's wallet balance, a counter of external gateway order-creation calls
and the next ticket primary key. -/
structure ViewWorld where
  show_row : MovieShow
  seats : List Seat
  tickets : Nat → Option Ticket
  payments : Nat → Option Payment
  balance : Int
  gateway_orders : Nat
  next_ticket_id : Nat

/-- views.py `seat_select` POST branch (lines 163-284) at time `now`.
`orderCreate` is the gateway boundary for the Razorpay branch: `some ref`
when the gateway mints an order reference, `none` when the call raises.
The wallet branch never touches `orderCreate` or the gateway counter. -/
def seat_select_post (vw : ViewWorld) (user : Nat) (selected_codes : List String)
    (pay_method : String) (orderCreate : Option String) (now : Int) :
    ViewWorld × Except Err Ticket :=
  -- release_expired_seat_locks(show), then the booking cutoff test (line 170, `<=`)
  let seats0 := release_expired_locks vw.seats now
  let vw0 := { vw with seats := seats0 }
  if vw.show_row.show_time ≤ now + BOOKING_CLOSE_MINS * 60 then (vw0, .error .bookingClosed) else
  if selected_codes.isEmpty then (vw0, .error .invalidRequest) else
  -- line 188: the cutoff is re-checked inside the POST branch
  if vw.show_row.show_time ≤ now + BOOKING_CLOSE_MINS * 60 then (vw0, .error .bookingClosed) else
  let sel := seats0.filter (fun s => selected_codes.contains s.seat_code)
  if sel.length ≠ selected_codes.length then (vw0, .error .unknownSeat) else
  if sel.any (fun s => s.is_booked) then (vw0, .error .seatUnavailable) else
  if sel.any (fun s => locked_by_other user now s) then (vw0, .error .seatLockedByOther) else
  let seats1 := seats0.map (fun s =>
    if selected_codes.contains s.seat_code then
      { s with locked_by := some user, locked_at := some now } else s)
  let total := (selected_codes.length : Int) * vw.show_row.price_per_seat
  let tid := vw.next_ticket_id
  let ticket : Ticket :=
    { id := tid, user := user, seat_codes := sel.map (fun s => s.seat_code), total_price := total, status := "PENDING", is_transferred := false }
  let vw1 := { vw0 with
    seats := seats1
    tickets := (fun i => if i = tid then some ticket else vw.tickets i)
    next_ticket_id := tid + 1 }
  if pay_method = "WALLET" then
    if vw1.balance < total then
      -- lines 236-240: release the locks and delete the pending ticket
      let seats2 := seats1.map (fun s =>
        if selected_codes.contains s.seat_code then
          { s with locked_by := none, locked_at := none } else s)
      ({ vw1 with seats := seats2, tickets := (fun i => if i = tid then none else vw.tickets i) },
       .error .insufficientFunds)
    else
      -- lines 242-257: synchronous debit, local PAID payment row, ticket BOOKED
      let pay : Payment :=
        { razorpay_order_id := "WALLET_" ++ toString tid, razorpay_payment_id := none, razorpay_signature := none, amount := total, status := "PAID" }
      let ticket1 := { ticket with status := "BOOKED" }
      let seats2 := seats1.map (fun s =>
        if selected_codes.contains s.seat_code then
          { s with is_booked := true, locked_by := none, locked_at := none } else s)
      ({ vw1 with balance := vw1.balance - total, payments := (fun i => if i = tid then some pay else vw1.payments i), tickets := (fun i => if i = tid then some ticket1 else vw.tickets i), seats := seats2 },
       .ok ticket1)
  else
    match orderCreate with
    | none =>
      -- lines 271-275: gateway failure rolls the locks and the ticket back
      let seats2 := seats1.map (fun s =>
        if selected_codes.contains s.seat_code then
          { s with locked_by := none, locked_at := none } else s)
      ({ vw1 with seats := seats2, tickets := (fun i => if i = tid then none else vw.tickets i), gateway_orders := vw1.gateway_orders + 1 },
       .error .gatewayFailure)
    | some oid =>
      -- lines 277-284: CREATED payment row against the gateway order
      let pay : Payment :=
        { razorpay_order_id := oid, razorpay_payment_id := none, razorpay_signature := none, amount := total, status := "CREATED" }
      ({ vw1 with payments := (fun i => if i = tid then some pay else vw1.payments i), gateway_orders := vw1.gateway_orders + 1 },
       .ok ticket)

deriving instance DecidableEq for Except

/-- A signature oracle that accepts every payload (a gateway for which the
submitted payload is valid). -/
def sig_all_ok : String → String → String → Bool := fun _ _ _ => true

/-! ## Helper lemmas -/

/-- One wallet event keeps a non-negative balance non-negative, provided a
credit amount is non-negative (every credit in the source is a payment
amount or a resale price, both non-negative). -/
theorem apply_wallet_op_nonneg (b : Int) (op : WalletOp) (h0 : 0 ≤ b)
    (hc : ∀ a : Int, op = WalletOp.credit a → 0 ≤ a) :
    0 ≤ apply_wallet_op b op := by
  cases op with
  | debit a =>
    by_cases hba : b < a
    · simpa [apply_wallet_op, wallet_pay, hba] using h0
    · simp only [apply_wallet_op, wallet_pay, if_neg hba]
      omega
  | credit a =>
    have ha := hc a rfl
    simp only [apply_wallet_op]
    omega

/-- A sequence of wallet events with non-negative credit amounts keeps a
non-negative balance non-negative. -/
theorem run_wallet_ops_nonneg : ∀ (ops : List WalletOp) (balance : Int),
    0 ≤ balance → (∀ a : Int, WalletOp.credit a ∈ ops → 0 ≤ a) →
    0 ≤ run_wallet_ops balance ops
  | [], b, h0, _ => by simpa [run_wallet_ops] using h0
  | op :: rest, b, h0, hc => by
    have hstep : 0 ≤ apply_wallet_op b op :=
      apply_wallet_op_nonneg b op h0 (fun a ha => hc a (ha ▸ List.mem_cons_self _ _))
    have htail := run_wallet_ops_nonneg rest (apply_wallet_op b op) hstep
      (fun a ha => hc a (List.mem_cons_of_mem _ ha))
    simpa [run_wallet_ops] using htail

/-! ## C5 — wallet non-negativity -/

/-- C5: starting from a non-negative balance, no sequence of debits and
credits (with non-negative credit amounts, as produced by the source's
call sites) drives the balance negative; a debit with `balance < amount`
fails with InsufficientFunds and leaves the balance unchanged, and a
successful debit decrements the balance by exactly the amount. -/
theorem claim5_wallet_nonneg (balance : Int) (ops : List WalletOp)
    (h0 : 0 ≤ balance)
    (hc : ∀ a : Int, WalletOp.credit a ∈ ops → 0 ≤ a) :
    0 ≤ run_wallet_ops balance ops ∧
    (∀ b a : Int, b < a →
       wallet_pay b a = .error .insufficientFunds ∧
       apply_wallet_op b (WalletOp.debit a) = b) ∧
    (∀ b a : Int, ¬ b < a → wallet_pay b a = .ok (b - a)) := by
  refine ⟨run_wallet_ops_nonneg ops balance h0 hc, ?_, ?_⟩
  · intro b a hba
    constructor
    · simp [wallet_pay, hba]
    · simp [apply_wallet_op, wallet_pay, hba]
  · intro b a hba
    simp [wallet_pay, hba]

/-- Witness for C5 at balance 5 and the event list
[debit 3, credit 2, debit 10]. -/
theorem claim5_wallet_nonneg_witness :
    0 ≤ run_wallet_ops 5 [WalletOp.debit 3, WalletOp.credit 2, WalletOp.debit 10] ∧
    (∀ b a : Int, b < a →
       wallet_pay b a = .error .insufficientFunds ∧
       apply_wallet_op b (WalletOp.debit a) = b) ∧
    (∀ b a : Int, ¬ b < a → wallet_pay b a = .ok (b - a)) :=
  claim5_wallet_nonneg 5 [WalletOp.debit 3, WalletOp.credit 2, WalletOp.debit 10]
    (by decide)
    (by intro a ha; simp at ha; omega)

/-! ## C7 — lock expiry on access -/

/-- The booked seat of the C7 counterexample, carrying a lock timestamp
5 minutes and 1 second in the past relative to `now = 0`. -/
def c7_booked_seat : Seat :=
  { seat_code := "B1", is_booked := true, locked_by := some 2, locked_at := some (-301) }

/-- C7 counterexample: the lazy purge does not clear the lock fields of a
seat whose `is_booked` flag is set, even when its lock timestamp is 5
minutes and 1 second old, because the purge filters on `is_booked=False`;
the claim quantified over every seat, so it fails on this one. -/
theorem claim7_counterexample :
    c7_booked_seat.locked_at = some (-301) ∧ (-301 : Int) ≤ 0 - LOCK_MINS * 60 - 1 ∧
    release_expired_locks [c7_booked_seat] 0 = [c7_booked_seat] ∧
    c7_booked_seat.locked_by = some 2 := by decide

/-- C7 (amended to unbooked seats): for every seat with `booked=false`
whose lock timestamp is at least 5 minutes and 1 second in the past, the
lazy purge run at the start of the next lock or reserve call clears its
`lockedBy`/`lockedAt` fields (leaving `booked` untouched), after which the
seat cannot trigger the locked-by-another-user rejection for any caller. -/
theorem claim7_amended (seats : List Seat) (now t : Int) (s : Seat)
    (hs : s ∈ seats) (hb : s.is_booked = false) (hla : s.locked_at = some t)
    (hstale : t ≤ now - LOCK_MINS * 60 - 1) :
    ({ s with locked_by := none, locked_at := none } : Seat) ∈ release_expired_locks seats now ∧
    ∀ user : Nat,
      locked_by_other user now ({ s with locked_by := none, locked_at := none } : Seat) = false := by
  constructor
  · apply List.mem_map.mpr
    refine ⟨s, hs, ?_⟩
    have hst : lock_is_stale now s = true := by
      simp only [lock_is_stale, hb, hla, lock_expiry_time, Bool.not_false, Bool.true_and,
        decide_eq_true_eq]
      omega
    simp [hst]
  · intro user
    simp [locked_by_other]

/-- Witness for C7 (amended) on a one-seat show at `now = 1000`. -/
theorem claim7_amended_witness :
    (({ seat_code := "A1", is_booked := false, locked_by := some 7, locked_at := some 699 } : Seat)
        ∈ [({ seat_code := "A1", is_booked := false, locked_by := some 7, locked_at := some 699 } : Seat)]) ∧
    (({ seat_code := "A1", is_booked := false, locked_by := none, locked_at := none } : Seat)
        ∈ release_expired_locks
            [({ seat_code := "A1", is_booked := false, locked_by := some 7, locked_at := some 699 } : Seat)] 1000 ∧
      ∀ user : Nat,
        locked_by_other user 1000
          ({ seat_code := "A1", is_booked := false, locked_by := none, locked_at := none } : Seat) = false) :=
  ⟨by decide,
   claim7_amended
     [({ seat_code := "A1", is_booked := false, locked_by := some 7, locked_at := some 699 } : Seat)]
     1000 699
     ({ seat_code := "A1", is_booked := false, locked_by := some 7, locked_at := some 699 } : Seat)
     (by decide) (by decide) (by decide) (by decide)⟩

/-! ## C9 — resale listing window and price -/

/-- C9: on a BOOKED, untransferred, unlisted ticket, `ListForResale` at
`show.startTime - 3h - 1s` succeeds and the created listing's resale price
equals the ticket's original total price, while at
`show.startTime - 3h + 1s` it fails with ResaleWindowClosed and changes
nothing. -/
theorem claim9_resale_window (rw : ResaleWorld) (user ticket_id : Nat) (t : Ticket)
    (hfind : rw.tickets ticket_id = some t) (huser : t.user = user)
    (hstatus : t.status = "BOOKED") (htrans : t.is_transferred = false)
    (hnolist : rw.resales.any (fun q => q.2.ticket_id = ticket_id) = false) :
    (list_ticket_for_resale rw user ticket_id (rw.show_time - 3 * 3600 - 1)).2 =
      .ok ({ ticket_id := ticket_id, seller := user, buyer := none, resale_price := t.total_price, is_sold := false }) ∧
    list_ticket_for_resale rw user ticket_id (rw.show_time - 3 * 3600 + 1) =
      (rw, .error .resaleWindowClosed) := by
  have hopen : resale_expired rw.show_time (rw.show_time - 10800 - 1) = false := by
    simp only [resale_expired, RESALE_CLOSE_HOURS, decide_eq_false_iff_not, not_le]
    omega
  have hclosed : resale_expired rw.show_time (rw.show_time - 10800 + 1) = true := by
    simp only [resale_expired, RESALE_CLOSE_HOURS, decide_eq_true_eq]
    omega
  constructor
  · simp [list_ticket_for_resale, hfind, huser, hstatus, htrans, hopen, hnolist]
  · simp [list_ticket_for_resale, hfind, huser, hstatus, htrans, hclosed]

/-- Ticket fixture for the C9 witness: a BOOKED, untransferred ticket with
total price 200. -/
def c9_ticket : Ticket :=
  { id := 1, user := 2, seat_codes := ["A1"], total_price := 200, status := "BOOKED", is_transferred := false }

/-- Resale-world fixture for the C9 witness: show at time 100000, one
BOOKED ticket, no listings. -/
def c9_world : ResaleWorld :=
  { show_time := 100000
    tickets := (fun i => if i = 1 then some c9_ticket else none)
    resales := []
    resale_payments := (fun _ => none)
    wallets := (fun _ => 0)
    next_resale_id := 1 }

/-- Witness for C9 on the concrete fixture. -/
theorem claim9_resale_window_witness :
    (c9_world.tickets 1 = some c9_ticket ∧ c9_ticket.user = 2 ∧
     c9_ticket.status = "BOOKED" ∧ c9_ticket.is_transferred = false) ∧
    ((list_ticket_for_resale c9_world 2 1 (c9_world.show_time - 3 * 3600 - 1)).2 =
       .ok ({ ticket_id := 1, seller := 2, buyer := none, resale_price := c9_ticket.total_price, is_sold := false }) ∧
     list_ticket_for_resale c9_world 2 1 (c9_world.show_time - 3 * 3600 + 1) =
       (c9_world, .error .resaleWindowClosed)) :=
  ⟨⟨by decide, by decide, by decide, by decide⟩,
   claim9_resale_window c9_world 2 1 c9_ticket (by decide) (by decide) (by decide)
     (by decide) (by decide)⟩

/-! ## C10 — minimum top-up amount -/

/-- C10: a wallet top-up request with amount below 10 is rejected by both
the service (`create_wallet_topup_order`) and the public view
(`wallet_add_money`) before the gateway is contacted: the returned state
is exactly the input state, so no gateway order is minted and no
WalletPayment row is created. -/
theorem claim10_min_topup (st : TopupWorld) (user : Nat) (amount : Int) (oid : String)
    (h : amount < 10) :
    create_wallet_topup_order st user amount oid = (st, .error .minTopup) ∧
    wallet_add_money st user amount oid = (st, .error .minTopup) := by
  constructor
  · simp [create_wallet_topup_order, h]
  · simp [wallet_add_money, h]

/-- Empty top-up state for the C10 witness. -/
def c10_state : TopupWorld :=
  { wallet_payments := (fun _ => none), balance := 0, gateway_orders := 0, next_wp_id := 1 }

/-- Witness for C10 at amount 5. -/
theorem claim10_min_topup_witness :
    (5 : Int) < 10 ∧
    (create_wallet_topup_order c10_state 1 5 ("o1") = (c10_state, .error .minTopup) ∧
     wallet_add_money c10_state 1 5 ("o1") = (c10_state, .error .minTopup)) :=
  ⟨by decide, claim10_min_topup c10_state 1 5 ("o1") (by decide)⟩

/-! ## C6 — wallet-paid booking path -/

/-- View world for C6: a show 10000 seconds away, two free seats at price
200, the requesting user's wallet holding 500, no gateway calls yet. -/
def c6_world : ViewWorld :=
  { show_row := { show_time := 10000, price_per_seat := 200 }
    seats := [{ seat_code := "A1", is_booked := false, locked_by := none, locked_at := none },
              { seat_code := "A2", is_booked := false, locked_by := none, locked_at := none }]
    tickets := (fun _ => none)
    payments := (fun _ => none)
    balance := 500
    gateway_orders := 0
    next_ticket_id := 1 }

/-- C6 counterexample: paying a booking from the wallet does create a
PaymentOrder row — the view inserts a Payment with the synthetic order
reference `WALLET_<ticket id>` already in status PAID — contradicting the
claim that no PaymentOrder is created on this path. -/
theorem claim6_counterexample :
    (seat_select_post c6_world 1 ["A1", "A2"] ("WALLET") none 0).2 =
      .ok ({ id := 1, user := 1, seat_codes := ["A1", "A2"], total_price := 400, status := "BOOKED", is_transferred := false }) ∧
    (seat_select_post c6_world 1 ["A1", "A2"] ("WALLET") none 0).1.payments 1 =
      some ({ razorpay_order_id := "WALLET_1", razorpay_payment_id := none, razorpay_signature := none, amount := 400, status := "PAID" }) := by decide

/-- C6 (amended): when a booking is paid from the wallet the external
gateway is never contacted and the debit happens synchronously: on
sufficient balance the wallet is debited by the total, the ticket is
immediately BOOKED with its seats booked and unlocked, and a local
PaymentOrder row is created already in status PAID with the synthetic
reference `WALLET_<ticket id>` (rather than no PaymentOrder at all); on
insufficient balance the reservation is rolled back — the pending ticket
is discarded, the selected seats' lock fields are cleared, and the wallet,
payment table and gateway counter are untouched. -/
theorem claim6_amended (vw : ViewWorld) (user : Nat) (selected_codes : List String) (now : Int)
    (hcut : ¬ vw.show_row.show_time ≤ now + BOOKING_CLOSE_MINS * 60)
    (hne : selected_codes.isEmpty = false)
    (hlen : ((release_expired_locks vw.seats now).filter
        (fun s => selected_codes.contains s.seat_code)).length = selected_codes.length)
    (hbook : ((release_expired_locks vw.seats now).filter
        (fun s => selected_codes.contains s.seat_code)).any (fun s => s.is_booked) = false)
    (hlock : ((release_expired_locks vw.seats now).filter
        (fun s => selected_codes.contains s.seat_code)).any
          (fun s => locked_by_other user now s) = false) :
    (vw.balance < (selected_codes.length : Int) * vw.show_row.price_per_seat →
       (seat_select_post vw user selected_codes ("WALLET") none now).2 =
         .error .insufficientFunds ∧
       (seat_select_post vw user selected_codes ("WALLET") none now).1.balance = vw.balance ∧
       (seat_select_post vw user selected_codes ("WALLET") none now).1.payments =
         vw.payments ∧
       (seat_select_post vw user selected_codes ("WALLET") none now).1.tickets
         vw.next_ticket_id = none ∧
       (seat_select_post vw user selected_codes ("WALLET") none now).1.gateway_orders =
         vw.gateway_orders ∧
       (∀ s ∈ release_expired_locks vw.seats now,
          selected_codes.contains s.seat_code = true →
          ({ seat_code := s.seat_code, is_booked := s.is_booked, locked_by := none, locked_at := none } : Seat) ∈
            (seat_select_post vw user selected_codes ("WALLET") none now).1.seats)) ∧
    (¬ vw.balance < (selected_codes.length : Int) * vw.show_row.price_per_seat →
       (seat_select_post vw user selected_codes ("WALLET") none now).2 =
         .ok ({ id := vw.next_ticket_id, user := user,
                seat_codes := ((release_expired_locks vw.seats now).filter
                  (fun s => selected_codes.contains s.seat_code)).map (fun s => s.seat_code),
                total_price := (selected_codes.length : Int) * vw.show_row.price_per_seat,
                status := "BOOKED", is_transferred := false }) ∧
       (seat_select_post vw user selected_codes ("WALLET") none now).1.balance =
         vw.balance - (selected_codes.length : Int) * vw.show_row.price_per_seat ∧
       (seat_select_post vw user selected_codes ("WALLET") none now).1.payments
           vw.next_ticket_id =
         some ({ razorpay_order_id := "WALLET_" ++ toString vw.next_ticket_id,
                 razorpay_payment_id := none, razorpay_signature := none,
                 amount := (selected_codes.length : Int) * vw.show_row.price_per_seat,
                 status := "PAID" }) ∧
       (seat_select_post vw user selected_codes ("WALLET") none now).1.gateway_orders =
         vw.gateway_orders ∧
       (∀ s ∈ release_expired_locks vw.seats now,
          selected_codes.contains s.seat_code = true →
          ({ seat_code := s.seat_code, is_booked := true, locked_by := none, locked_at := none } : Seat) ∈
            (seat_select_post vw user selected_codes ("WALLET") none now).1.seats)) := by
  have h2 : ¬ (selected_codes.isEmpty = true) := by simp only [hne]; decide
  have h4 : ¬ (((release_expired_locks vw.seats now).filter
      (fun s => selected_codes.contains s.seat_code)).length ≠ selected_codes.length) :=
    not_not_intro hlen
  have h5 : ¬ (((release_expired_locks vw.seats now).filter
      (fun s => selected_codes.contains s.seat_code)).any (fun s => s.is_booked) = true) := by
    simp only [hbook]; decide
  have h6 : ¬ (((release_expired_locks vw.seats now).filter
      (fun s => selected_codes.contains s.seat_code)).any
        (fun s => locked_by_other user now s) = true) := by
    simp only [hlock]; decide
  have h7 : ("WALLET" : String) = "WALLET" := rfl
  constructor
  · intro hbal
    unfold seat_select_post
    simp only [if_neg hcut, if_neg h2, if_neg h4, if_neg h5, if_neg h6, if_pos h7, if_pos hbal]
    refine ⟨rfl, rfl, rfl, by simp, rfl, ?_⟩
    intro s hs hsel
    have hmem : s.seat_code ∈ selected_codes := by simpa using hsel
    refine List.mem_map.mpr ⟨_, List.mem_map.mpr ⟨s, hs, rfl⟩, ?_⟩
    simp [hmem]
  · intro hbal
    unfold seat_select_post
    simp only [if_neg hcut, if_neg h2, if_neg h4, if_neg h5, if_neg h6, if_pos h7, if_neg hbal]
    refine ⟨rfl, rfl, by simp, rfl, ?_⟩
    intro s hs hsel
    have hmem : s.seat_code ∈ selected_codes := by simpa using hsel
    refine List.mem_map.mpr ⟨_, List.mem_map.mpr ⟨s, hs, rfl⟩, ?_⟩
    simp [hmem]

/-- Witness for C6 (amended) on the concrete two-seat world: the wallet
has 500 and the total is 400, so the sufficient-balance branch applies. -/
theorem claim6_amended_witness :
    (¬ c6_world.show_row.show_time ≤ 0 + BOOKING_CLOSE_MINS * 60) ∧
    (¬ c6_world.balance < ((["A1", "A2"] : List String).length : Int) * c6_world.show_row.price_per_seat) ∧
    ((seat_select_post c6_world 1 ["A1", "A2"] ("WALLET") none 0).2 =
       .ok ({ id := c6_world.next_ticket_id, user := 1,
              seat_codes := ((release_expired_locks c6_world.seats 0).filter
                (fun s => (["A1", "A2"] : List String).contains s.seat_code)).map (fun s => s.seat_code),
              total_price := ((["A1", "A2"] : List String).length : Int) * c6_world.show_row.price_per_seat,
              status := "BOOKED", is_transferred := false }) ∧
     (seat_select_post c6_world 1 ["A1", "A2"] ("WALLET") none 0).1.balance =
       c6_world.balance - ((["A1", "A2"] : List String).length : Int) * c6_world.show_row.price_per_seat ∧
     (seat_select_post c6_world 1 ["A1", "A2"] ("WALLET") none 0).1.payments
         c6_world.next_ticket_id =
       some ({ razorpay_order_id := "WALLET_" ++ toString c6_world.next_ticket_id,
               razorpay_payment_id := none, razorpay_signature := none,
               amount := ((["A1", "A2"] : List String).length : Int) * c6_world.show_row.price_per_seat,
               status := "PAID" }) ∧
     (seat_select_post c6_world 1 ["A1", "A2"] ("WALLET") none 0).1.gateway_orders =
       c6_world.gateway_orders ∧
     (∀ s ∈ release_expired_locks c6_world.seats 0,
        (["A1", "A2"] : List String).contains s.seat_code = true →
        ({ seat_code := s.seat_code, is_booked := true, locked_by := none, locked_at := none } : Seat) ∈
          (seat_select_post c6_world 1 ["A1", "A2"] ("WALLET") none 0).1.seats)) :=
  ⟨by decide, by decide,
   (claim6_amended c6_world 1 ["A1", "A2"] 0 (by decide) (by decide) (by decide)
     (by decide) (by decide)).2 (by decide)⟩

/-! ## Lookup/update lemmas for the verification flows -/

/-- Inverting a successful `Ticket.objects.get(id=..., user=...)` lookup. -/
theorem find_ticket_eq_some (w : World) (ticket_id user : Nat) (t : Ticket)
    (h : find_ticket w ticket_id user = some t) :
    w.tickets ticket_id = some t ∧ t.user = user := by
  unfold find_ticket at h
  cases hw : w.tickets ticket_id with
  | none => simp only [hw] at h; simp at h
  | some t0 =>
    simp only [hw] at h
    by_cases hu : t0.user = user
    · rw [if_pos hu] at h
      injection h with h
      subst h
      exact ⟨rfl, hu⟩
    · rw [if_neg hu] at h; cases h

/-- Writing a payment row does not affect ticket lookups. -/
theorem find_ticket_set_payment (w : World) (k i u : Nat) (p : Payment) :
    find_ticket (set_payment w k p) i u = find_ticket w i u := rfl

/-- Replacing the seat table does not affect ticket lookups. -/
theorem find_ticket_seats (w : World) (s : List Seat) (i u : Nat) :
    find_ticket ({ w with seats := s }) i u = find_ticket w i u := rfl

/-- Ticket lookup after writing a different ticket row. -/
theorem find_ticket_set_ticket_ne (w : World) (k i u : Nat) (t1 : Ticket) (hik : i ≠ k) :
    find_ticket (set_ticket w k t1) i u = find_ticket w i u := by
  simp [find_ticket, set_ticket, hik]

/-- Ticket lookup after writing that very ticket row, for its owner. -/
theorem find_ticket_set_ticket_eq (w : World) (k u : Nat) (t1 : Ticket) (hu : t1.user = u) :
    find_ticket (set_ticket w k t1) k u = some t1 := by
  simp [find_ticket, set_ticket, hu]

/-- `confirm_ticket_booking` never writes the payment table. -/
theorem confirm_payments (w : World) (ticket_id user : Nat) :
    (confirm_ticket_booking w ticket_id user).1.payments = w.payments := by
  unfold confirm_ticket_booking
  cases hf : find_ticket w ticket_id user with
  | none => rfl
  | some t =>
    by_cases hb : t.status = "BOOKED"
    · simp [hb]
    · by_cases hp : t.status = "PENDING"
      · simp [hb, hp, set_ticket]
      · simp [hb, hp]

/-- `confirm_ticket_booking` keeps every existing (ticket, user) lookup
resolvable. -/
theorem confirm_find_ticket_isSome (w : World) (k user i : Nat)
    (h : (find_ticket w i user).isSome = true) :
    (find_ticket (confirm_ticket_booking w k user).1 i user).isSome = true := by
  unfold confirm_ticket_booking
  cases hf : find_ticket w k user with
  | none => simpa using h
  | some t =>
    by_cases hb : t.status = "BOOKED"
    · simpa [hb] using h
    · by_cases hp : t.status = "PENDING"
      · simp only [hf]
        rw [if_neg hb, if_neg (not_not_intro hp)]
        by_cases hik : i = k
        · subst hik
          rw [find_ticket_set_ticket_eq]
          · rfl
          · exact (find_ticket_eq_some w i user t hf).2
        · rw [find_ticket_set_ticket_ne _ _ _ _ _ hik, find_ticket_seats]
          exact h
      · simpa [hb, hp] using h

/-- Replay of an already-successful `verify_booking_payment` with the same
payload: it returns the same PAID payment and does not change the state. -/
theorem verify_booking_replay (sigOk : String → String → String → Bool)
    (w : World) (ticket_id user : Nat) (pid oid sig : String) (w1 : World) (pay : Payment)
    (h : verify_booking_payment sigOk w ticket_id user pid oid sig = (w1, .ok pay)) :
    pay.status = "PAID" ∧
    verify_booking_payment sigOk w1 ticket_id user pid oid sig = (w1, .ok pay) := by
  unfold verify_booking_payment at h
  cases hf : find_ticket w ticket_id user with
  | none => simp only [hf] at h; simp at h
  | some t =>
    simp only [hf] at h
    cases hp : w.payments ticket_id with
    | none => simp only [hp] at h; simp at h
    | some pay0 =>
      simp only [hp] at h
      by_cases hpaid : pay0.status = "PAID"
      · rw [if_pos hpaid] at h
        rw [Prod.mk.injEq] at h
        obtain ⟨hw, hpy⟩ := h
        injection hpy with hpe
        subst hw; subst hpe
        refine ⟨hpaid, ?_⟩
        unfold verify_booking_payment
        simp only [hf, hp, if_pos hpaid]
      · rw [if_neg hpaid] at h
        by_cases hord : pay0.razorpay_order_id ≠ oid
        · rw [if_pos hord] at h; simp at h
        · rw [if_neg hord] at h
          by_cases hsg : (!(sigOk pid oid sig)) = true
          · rw [if_pos hsg] at h; simp at h
          · rw [if_neg hsg] at h
            rcases hcs : confirm_ticket_booking
                (set_payment w ticket_id
                  ({ pay0 with razorpay_payment_id := some pid, razorpay_signature := some sig, status := "PAID" }))
                t.id user with ⟨w2, e | t2⟩
            · simp only [hcs] at h; simp at h
            · simp only [hcs] at h
              rw [Prod.mk.injEq] at h
              obtain ⟨hw, hpy⟩ := h
              injection hpy with hpe
              subst hpe
              subst hw
              refine ⟨rfl, ?_⟩
              have hfsp : (find_ticket
                  (set_payment w ticket_id
                    ({ pay0 with razorpay_payment_id := some pid, razorpay_signature := some sig, status := "PAID" }))
                  ticket_id user).isSome = true := by
                rw [find_ticket_set_payment, hf]; rfl
              have hsome := confirm_find_ticket_isSome _ t.id user ticket_id hfsp
              rw [hcs] at hsome
              obtain ⟨tx, htx⟩ := Option.isSome_iff_exists.mp hsome
              have hpays : w2.payments ticket_id =
                  some ({ pay0 with razorpay_payment_id := some pid, razorpay_signature := some sig, status := "PAID" }) := by
                have hcp := confirm_payments
                  (set_payment w ticket_id
                    ({ pay0 with razorpay_payment_id := some pid, razorpay_signature := some sig, status := "PAID" }))
                  t.id user
                rw [hcs] at hcp
                rw [show w2.payments = (set_payment w ticket_id
                    ({ pay0 with razorpay_payment_id := some pid, razorpay_signature := some sig, status := "PAID" })).payments
                  from hcp]
                simp [set_payment]
              unfold verify_booking_payment
              simp only [htx, hpays]
              simp

/-- Inverting a successful `WalletPayment.objects.get(id=..., user=...)`
lookup. -/
theorem find_wp_eq_some (st : TopupWorld) (payment_id user : Nat) (wp : WalletPayment)
    (h : find_wp st payment_id user = some wp) :
    st.wallet_payments payment_id = some wp ∧ wp.user = user := by
  unfold find_wp at h
  cases hw : st.wallet_payments payment_id with
  | none => simp only [hw] at h; simp at h
  | some wp0 =>
    simp only [hw] at h
    by_cases hu : wp0.user = user
    · rw [if_pos hu] at h
      injection h with h
      subst h
      exact ⟨rfl, hu⟩
    · rw [if_neg hu] at h; cases h

/-- Replay of an already-successful `verify_wallet_topup` with the same
payload: it returns the same PAID row and does not credit again. -/
theorem verify_wallet_replay (sigOk : String → String → String → Bool)
    (st : TopupWorld) (payment_id user : Nat) (pid oid sig : String)
    (st1 : TopupWorld) (wp : WalletPayment)
    (h : verify_wallet_topup sigOk st payment_id user pid oid sig = (st1, .ok wp)) :
    wp.status = "PAID" ∧
    verify_wallet_topup sigOk st1 payment_id user pid oid sig = (st1, .ok wp) := by
  unfold verify_wallet_topup at h
  cases hf : find_wp st payment_id user with
  | none => simp only [hf] at h; simp at h
  | some wp0 =>
    simp only [hf] at h
    by_cases hpaid : wp0.status = "PAID"
    · rw [if_pos hpaid] at h
      rw [Prod.mk.injEq] at h
      obtain ⟨hw, hpy⟩ := h
      injection hpy with hpe
      subst hw; subst hpe
      refine ⟨hpaid, ?_⟩
      unfold verify_wallet_topup
      simp only [hf, if_pos hpaid]
    · rw [if_neg hpaid] at h
      by_cases hsg : (!(sigOk pid oid sig)) = true
      · rw [if_pos hsg] at h; simp at h
      · rw [if_neg hsg] at h
        rw [Prod.mk.injEq] at h
        obtain ⟨hw, hpy⟩ := h
        injection hpy with hpe
        subst hpe
        subst hw
        refine ⟨rfl, ?_⟩
        have hu := (find_wp_eq_some st payment_id user wp0 hf).2
        unfold verify_wallet_topup
        have hfw : find_wp
            ({ set_wp st payment_id
                ({ wp0 with razorpay_payment_id := some pid, razorpay_signature := some sig, status := "PAID" }) with
               balance := (set_wp st payment_id
                ({ wp0 with razorpay_payment_id := some pid, razorpay_signature := some sig, status := "PAID" })).balance + wp0.amount })
            payment_id user =
            some ({ wp0 with razorpay_payment_id := some pid, razorpay_signature := some sig, status := "PAID" }) := by
          simp [find_wp, set_wp, hu]
        simp only [hfw]
        simp

/-- `find?` over a key-preserving map of an association list. -/
theorem find_map_key (rs : List (Nat × ResaleListing)) (rid : Nat)
    (f : Nat × ResaleListing → Nat × ResaleListing)
    (hf : ∀ q, (f q).1 = q.1) :
    (rs.map f).find? (fun q => q.1 = rid) = (rs.find? (fun q => q.1 = rid)).map f := by
  induction rs with
  | nil => rfl
  | cons a rest ih =>
    by_cases ha : a.1 = rid
    · simp [List.find?, hf, ha]
    · simp [List.find?, hf, ha, ih]

/-- Inverting a successful `TicketResale.objects.get(id=..., is_sold=False)`
lookup. -/
theorem find_resale_inv (rw : ResaleWorld) (rid : Nat) (r : ResaleListing)
    (h : find_resale rw rid = some r) :
    rw.resales.find? (fun q => q.1 = rid) = some (rid, r) ∧ r.is_sold = false := by
  unfold find_resale at h
  cases he : rw.resales.find? (fun q => q.1 = rid) with
  | none => simp only [he] at h; simp at h
  | some e =>
    obtain ⟨k, lst⟩ := e
    have hk : k = rid := by
      have hp := List.find?_some he
      simpa using hp
    subst hk
    simp only [he, Option.map_some'] at h
    by_cases hs : lst.is_sold
    · rw [if_pos hs] at h; cases h
    · rw [if_neg hs] at h
      injection h with h
      subst h
      exact ⟨rfl, by simpa using hs⟩

/-- A second call to `verify_resale_buy_payment` after a successful one
fails with a not-found lookup (the listing is now marked sold) and changes
nothing. -/
theorem verify_resale_once (sigOk : String → String → String → Bool)
    (rw : ResaleWorld) (user resale_id : Nat) (pid oid sig : String) (now : Int)
    (rw1 : ResaleWorld) (rp : Payment)
    (h : verify_resale_buy_payment sigOk rw user resale_id pid oid sig now = (rw1, .ok rp)) :
    rp.status = "PAID" ∧
    verify_resale_buy_payment sigOk rw1 user resale_id pid oid sig now =
      (rw1, .error .notFound) := by
  unfold verify_resale_buy_payment at h
  cases hf : find_resale rw resale_id with
  | none => simp only [hf] at h; simp at h
  | some resale =>
    simp only [hf] at h
    cases hp : rw.resale_payments resale_id with
    | none => simp only [hp] at h; simp at h
    | some rp0 =>
      simp only [hp] at h
      by_cases hsel : resale.seller = user
      · rw [if_pos hsel] at h; simp at h
      · rw [if_neg hsel] at h
        by_cases hexp : resale_expired rw.show_time now = true
        · rw [if_pos hexp] at h; simp at h
        · rw [if_neg hexp] at h
          by_cases hsg : (!(sigOk pid oid sig)) = true
          · rw [if_pos hsg] at h; simp at h
          · rw [if_neg hsg] at h
            have hinv := find_resale_inv rw resale_id resale hf
            rcases ht : rw.tickets resale.ticket_id with _ | tk
            all_goals
              simp only [ht] at h
              rw [Prod.mk.injEq] at h
              obtain ⟨hw, hpy⟩ := h
              injection hpy with hpe
              constructor
              · rw [← hpe]
              · have hres : rw1.resales = rw.resales.map
                    (fun (q : Nat × ResaleListing) =>
                      if q.1 = resale_id then
                        (q.1, { q.2 with buyer := some user, is_sold := true })
                      else q) := by
                  rw [← hw]
                have hfr : find_resale rw1 resale_id = none := by
                  unfold find_resale
                  rw [hres, find_map_key _ _ _
                    (by intro q; by_cases hq : q.1 = resale_id <;> simp [hq]), hinv.1]
                  simp
                unfold verify_resale_buy_payment
                simp only [hfr]

/-! ## C1 — idempotent payment verification -/

/-- Ticket fixture for the C1 counterexample/witness flows. -/
def c1_ticket : Ticket :=
  { id := 1, user := 2, seat_codes := ["A1"], total_price := 200, status := "BOOKED", is_transferred := false }

/-- Listing fixture for the C1 counterexample. -/
def c1_listing : ResaleListing :=
  { ticket_id := 1, seller := 2, buyer := none, resale_price := 200, is_sold := false }

/-- Payment fixture (CREATED) for the C1 counterexample. -/
def c1_payment : Payment :=
  { razorpay_order_id := "ordR", razorpay_payment_id := none, razorpay_signature := none, amount := 200, status := "CREATED" }

/-- Resale world for the C1 counterexample: one BOOKED ticket of user 2,
listed, with a CREATED resale payment; user 3 buys it. -/
def c1_world : ResaleWorld :=
  { show_time := 100000
    tickets := (fun i => if i = 1 then some c1_ticket else none)
    resales := [(1, c1_listing)]
    resale_payments := (fun i => if i = 1 then some c1_payment else none)
    wallets := (fun _ => 0)
    next_resale_id := 2 }

/-- C1 counterexample: for the resale kind, the second call of the
verification with the same valid payload does not return the same PAID
payment order — it fails with a not-found lookup, because the listing was
marked sold by the first call and `verify_resale_buy_payment` has no
already-PAID early return. The side-effect still happens only once, but
the claimed replay-returns-the-PAID-order behaviour is false. -/
theorem claim1_counterexample :
    (verify_resale_buy_payment sig_all_ok c1_world 3 1 ("payP") ("ordR") ("sigS") 0).2 =
      .ok ({ c1_payment with
             razorpay_payment_id := some ("payP")
             razorpay_signature := some ("sigS")
             status := "PAID" }) ∧
    (verify_resale_buy_payment sig_all_ok
       (verify_resale_buy_payment sig_all_ok c1_world 3 1 ("payP") ("ordR") ("sigS") 0).1
       3 1 ("payP") ("ordR") ("sigS") 0).2 = .error .notFound := by decide

/-- C1 (amended): after a successful verification, replaying the same
valid payload performs the domain side-effect zero further times in all
three kinds; for ticket purchases and wallet top-ups the replay returns
the very same PAID payment order with the state unchanged, while for
resale purchases the replay fails with a not-found lookup (again with the
state unchanged), because the sold listing no longer matches the
`is_sold=False` lookup and there is no already-PAID early return. -/
theorem claim1_amended :
    (∀ (sigOk : String → String → String → Bool) (w : World) (ticket_id user : Nat)
       (pid oid sig : String) (w1 : World) (pay : Payment),
       verify_booking_payment sigOk w ticket_id user pid oid sig = (w1, .ok pay) →
       pay.status = "PAID" ∧
       verify_booking_payment sigOk w1 ticket_id user pid oid sig = (w1, .ok pay)) ∧
    (∀ (sigOk : String → String → String → Bool) (st : TopupWorld) (payment_id user : Nat)
       (pid oid sig : String) (st1 : TopupWorld) (wp : WalletPayment),
       verify_wallet_topup sigOk st payment_id user pid oid sig = (st1, .ok wp) →
       wp.status = "PAID" ∧
       verify_wallet_topup sigOk st1 payment_id user pid oid sig = (st1, .ok wp)) ∧
    (∀ (sigOk : String → String → String → Bool) (rw : ResaleWorld) (user resale_id : Nat)
       (pid oid sig : String) (now : Int) (rw1 : ResaleWorld) (rp : Payment),
       verify_resale_buy_payment sigOk rw user resale_id pid oid sig now = (rw1, .ok rp) →
       rp.status = "PAID" ∧
       verify_resale_buy_payment sigOk rw1 user resale_id pid oid sig now =
         (rw1, .error .notFound)) :=
  ⟨verify_booking_replay, verify_wallet_replay, verify_resale_once⟩

/-- Ticket fixture for the C1 witness (booking kind). -/
def c1_book_ticket : Ticket :=
  { id := 1, user := 1, seat_codes := ["A1"], total_price := 200, status := "PENDING", is_transferred := false }

/-- World fixture for the C1 witness (booking kind). -/
def c1_book_world : World :=
  { show_row := { show_time := 100000, price_per_seat := 200 }
    seats := [{ seat_code := "A1", is_booked := false, locked_by := some 1, locked_at := some 500 }]
    tickets := (fun i => if i = 1 then some c1_book_ticket else none)
    payments := (fun i => if i = 1 then some
      ({ razorpay_order_id := "ord1", razorpay_payment_id := none, razorpay_signature := none, amount := 200, status := "CREATED" }) else none)
    next_ticket_id := 2 }

/-- The PAID payment produced by the first verification in the C1 witness. -/
def c1_book_paid : Payment :=
  { razorpay_order_id := "ord1", razorpay_payment_id := some ("payX"), razorpay_signature := some ("sigX"), amount := 200, status := "PAID" }

/-- Witness for C1 (amended), booking kind, on a concrete world. -/
theorem claim1_amended_witness :
    c1_book_paid.status = "PAID" ∧
    verify_booking_payment sig_all_ok
        (verify_booking_payment sig_all_ok c1_book_world 1 1 ("payX") ("ord1") ("sigX")).1
        1 1 ("payX") ("ord1") ("sigX") =
      ((verify_booking_payment sig_all_ok c1_book_world 1 1 ("payX") ("ord1") ("sigX")).1,
       .ok c1_book_paid) :=
  claim1_amended.1 sig_all_ok c1_book_world 1 1 ("payX") ("ord1") ("sigX")
    (verify_booking_payment sig_all_ok c1_book_world 1 1 ("payX") ("ord1") ("sigX")).1
    c1_book_paid
    (by
      have h2 : (verify_booking_payment sig_all_ok c1_book_world 1 1
          ("payX") ("ord1") ("sigX")).2 = .ok c1_book_paid := by decide
      calc verify_booking_payment sig_all_ok c1_book_world 1 1 ("payX") ("ord1") ("sigX") =
          ((verify_booking_payment sig_all_ok c1_book_world 1 1 ("payX") ("ord1") ("sigX")).1,
           (verify_booking_payment sig_all_ok c1_book_world 1 1 ("payX") ("ord1") ("sigX")).2) := rfl
        _ = ((verify_booking_payment sig_all_ok c1_book_world 1 1 ("payX") ("ord1") ("sigX")).1,
           .ok c1_book_paid) := by rw [h2])

/-! ## C2 — order-reference mismatch handling -/

/-- WalletPayment fixture for the C2 counterexample: stored gateway order
reference is "ordA". -/
def c2_wp : WalletPayment :=
  { id := 1, user := 1, razorpay_order_id := "ordA", razorpay_payment_id := none, razorpay_signature := none, amount := 50, status := "CREATED" }

/-- Top-up world fixture for the C2 counterexample. -/
def c2_state : TopupWorld :=
  { wallet_payments := (fun i => if i = 1 then some c2_wp else none)
    balance := 0
    gateway_orders := 1
    next_wp_id := 2 }

/-- C2 counterexample: the wallet top-up verification does not compare the
supplied order reference with the stored one — called with "ordB" against
a stored "ordA" and a gateway that accepts the signature, it marks the
order PAID and credits the wallet instead of rejecting with OrderMismatch
and setting the order FAILED. -/
theorem claim2_counterexample :
    c2_wp.razorpay_order_id = "ordA" ∧ ("ordB" : String) ≠ "ordA" ∧
    (verify_wallet_topup sig_all_ok c2_state 1 1 ("payB") ("ordB") ("sigB")).2 =
      .ok ({ c2_wp with
             razorpay_payment_id := some ("payB")
             razorpay_signature := some ("sigB")
             status := "PAID" }) ∧
    (verify_wallet_topup sig_all_ok c2_state 1 1 ("payB") ("ordB") ("sigB")).1.balance = 50 := by
  decide

/-- C2 (amended): only the ticket-purchase verification checks the stored
order reference — there a mismatch sets the order FAILED, rejects with
OrderMismatch and touches neither tickets nor seats. The wallet top-up and
resale verifications perform no such comparison: for every supplied order
reference (matching or not), if the signature oracle accepts the payload
they mark the order PAID and apply the domain effect (wallet credit,
seller credit). -/
theorem claim2_amended :
    (∀ (sigOk : String → String → String → Bool) (w : World) (ticket_id user : Nat)
       (pid oid sig : String) (t : Ticket) (pay : Payment),
       find_ticket w ticket_id user = some t →
       w.payments ticket_id = some pay →
       pay.status ≠ "PAID" →
       pay.razorpay_order_id ≠ oid →
       verify_booking_payment sigOk w ticket_id user pid oid sig =
         (set_payment w ticket_id ({ pay with status := "FAILED" }), .error .orderMismatch) ∧
       (set_payment w ticket_id ({ pay with status := "FAILED" })).tickets = w.tickets ∧
       (set_payment w ticket_id ({ pay with status := "FAILED" })).seats = w.seats) ∧
    (∀ (sigOk : String → String → String → Bool) (st : TopupWorld) (payment_id user : Nat)
       (pid oid sig : String) (wp : WalletPayment),
       find_wp st payment_id user = some wp →
       wp.status ≠ "PAID" →
       sigOk pid oid sig = true →
       (verify_wallet_topup sigOk st payment_id user pid oid sig).2 =
         .ok ({ wp with razorpay_payment_id := some pid, razorpay_signature := some sig, status := "PAID" }) ∧
       (verify_wallet_topup sigOk st payment_id user pid oid sig).1.balance =
         st.balance + wp.amount) ∧
    (∀ (sigOk : String → String → String → Bool) (rw : ResaleWorld) (user resale_id : Nat)
       (pid oid sig : String) (now : Int) (resale : ResaleListing) (rp : Payment),
       find_resale rw resale_id = some resale →
       rw.resale_payments resale_id = some rp →
       resale.seller ≠ user →
       resale_expired rw.show_time now = false →
       sigOk pid oid sig = true →
       (verify_resale_buy_payment sigOk rw user resale_id pid oid sig now).2 =
         .ok ({ rp with razorpay_payment_id := some pid, razorpay_signature := some sig, status := "PAID" }) ∧
       (verify_resale_buy_payment sigOk rw user resale_id pid oid sig now).1.wallets
           resale.seller =
         rw.wallets resale.seller + resale.resale_price) := by
  refine ⟨?_, ?_, ?_⟩
  · intro sigOk w ticket_id user pid oid sig t pay hf hp hpaid hord
    refine ⟨?_, rfl, rfl⟩
    unfold verify_booking_payment
    simp only [hf, hp, if_neg hpaid, if_pos hord]
  · intro sigOk st payment_id user pid oid sig wp hf hpaid hsg
    have hnot : ¬ ((!(sigOk pid oid sig)) = true) := by simp [hsg]
    constructor
    · unfold verify_wallet_topup
      simp only [hf, if_neg hpaid, if_neg hnot]
    · unfold verify_wallet_topup
      simp only [hf, if_neg hpaid, if_neg hnot]
      simp [set_wp]
  · intro sigOk rw user resale_id pid oid sig now resale rp hf hp hsel hexp hsg
    have hnot : ¬ ((!(sigOk pid oid sig)) = true) := by simp [hsg]
    have hnotexp : ¬ (resale_expired rw.show_time now = true) := by simp [hexp]
    cases ht : rw.tickets resale.ticket_id with
    | none =>
      constructor
      · unfold verify_resale_buy_payment
        simp only [hf, hp, if_neg hsel, if_neg hnotexp, if_neg hnot, ht]
      · unfold verify_resale_buy_payment
        simp only [hf, hp, if_neg hsel, if_neg hnotexp, if_neg hnot, ht]
        simp
    | some tk =>
      constructor
      · unfold verify_resale_buy_payment
        simp only [hf, hp, if_neg hsel, if_neg hnotexp, if_neg hnot, ht]
      · unfold verify_resale_buy_payment
        simp only [hf, hp, if_neg hsel, if_neg hnotexp, if_neg hnot, ht]
        simp

/-- Ticket fixture shared by the C2/C8 witnesses: a PENDING ticket. -/
def c2_book_ticket : Ticket :=
  { id := 1, user := 1, seat_codes := ["A1"], total_price := 200, status := "PENDING", is_transferred := false }

/-- The CREATED payment stored for the C2 witness (order "ord1"). -/
def c2_book_created : Payment :=
  { razorpay_order_id := "ord1", razorpay_payment_id := none, razorpay_signature := none, amount := 200, status := "CREATED" }

/-- Booking world fixture for the C2 witness. -/
def c2_book_world : World :=
  { show_row := { show_time := 100000, price_per_seat := 200 }
    seats := [{ seat_code := "A1", is_booked := false, locked_by := some 1, locked_at := some 500 }]
    tickets := (fun i => if i = 1 then some c2_book_ticket else none)
    payments := (fun i => if i = 1 then some c2_book_created else none)
    next_ticket_id := 2 }

/-- Witness for C2 (amended), booking kind: a mismatched order reference
"ordZ" against the stored "ord1" is rejected with OrderMismatch. -/
theorem claim2_amended_witness :
    (find_ticket c2_book_world 1 1 = some c2_book_ticket ∧
     c2_book_world.payments 1 = some c2_book_created ∧
     c2_book_created.status ≠ "PAID" ∧
     c2_book_created.razorpay_order_id ≠ "ordZ") ∧
    (verify_booking_payment sig_all_ok c2_book_world 1 1 ("payX") ("ordZ") ("sigX") =
       (set_payment c2_book_world 1 ({ c2_book_created with status := "FAILED" }),
        .error .orderMismatch) ∧
     (set_payment c2_book_world 1 ({ c2_book_created with status := "FAILED" })).tickets =
       c2_book_world.tickets ∧
     (set_payment c2_book_world 1 ({ c2_book_created with status := "FAILED" })).seats =
       c2_book_world.seats) :=
  ⟨⟨by decide, by decide, by decide, by decide⟩,
   claim2_amended.1 sig_all_ok c2_book_world 1 1 ("payX") ("ordZ") ("sigX")
     c2_book_ticket c2_book_created (by decide) (by decide) (by decide) (by decide)⟩

/-! ## C8 — payment status transitions -/

/-- FAILED payment fixture for the C8 counterexample. -/
def c8_failed : Payment :=
  { razorpay_order_id := "ord1", razorpay_payment_id := none, razorpay_signature := none, amount := 200, status := "FAILED" }

/-- Booking world for the C8 counterexample: PENDING ticket whose payment
is FAILED (the state left by a failed verification). -/
def c8_world : World :=
  { show_row := { show_time := 100000, price_per_seat := 200 }
    seats := [{ seat_code := "A1", is_booked := false, locked_by := some 1, locked_at := some 500 }]
    tickets := (fun i => if i = 1 then some c2_book_ticket else none)
    payments := (fun i => if i = 1 then some c8_failed else none)
    next_ticket_id := 2 }

/-- C8 counterexample: FAILED is not terminal — re-creating the gateway
order for the still-PENDING ticket moves the stored payment order from
FAILED back to CREATED. -/
theorem claim8_counterexample :
    c8_world.payments 1 = some c8_failed ∧ c8_failed.status = "FAILED" ∧
    (create_booking_razorpay_order c8_world 1 1 ("ord2")).2 =
      .ok ({ c8_failed with razorpay_order_id := "ord2", amount := 200, status := "CREATED" }) ∧
    (create_booking_razorpay_order c8_world 1 1 ("ord2")).1.payments 1 =
      some ({ c8_failed with razorpay_order_id := "ord2", amount := 200, status := "CREATED" }) := by decide

/-- C8 (amended): a payment order starts CREATED and moves to PAID or
FAILED; PAID is terminal in every reachable state (verification marks the
ticket BOOKED in the same unit, so order re-creation fails with the state
unchanged, and re-verification replays idempotently), but FAILED is not:
while the ticket is still PENDING, re-creating the order resets the row
from FAILED to CREATED, and re-running verification with a valid matching
payload moves it from FAILED to PAID. -/
theorem claim8_amended :
    (∀ (sigOk : String → String → String → Bool) (w : World) (ticket_id user : Nat)
       (pid oid sig : String) (t : Ticket) (pay : Payment),
       find_ticket w ticket_id user = some t →
       w.payments ticket_id = some pay →
       pay.status = "PAID" →
       verify_booking_payment sigOk w ticket_id user pid oid sig = (w, .ok pay)) ∧
    (∀ (w : World) (ticket_id user : Nat) (t : Ticket) (new_order_id : String),
       find_ticket w ticket_id user = some t →
       t.status = "BOOKED" →
       create_booking_razorpay_order w ticket_id user new_order_id =
         (w, .error .notPending)) ∧
    (∀ (w : World) (ticket_id user : Nat) (t : Ticket) (pay : Payment) (new_order_id : String),
       find_ticket w ticket_id user = some t →
       t.status = "PENDING" →
       w.payments ticket_id = some pay →
       pay.status = "FAILED" →
       create_booking_razorpay_order w ticket_id user new_order_id =
         (set_payment w ticket_id
           ({ pay with razorpay_order_id := new_order_id, amount := t.total_price, status := "CREATED" }),
          .ok ({ pay with razorpay_order_id := new_order_id, amount := t.total_price, status := "CREATED" }))) ∧
    (∀ (sigOk : String → String → String → Bool) (w : World) (ticket_id user : Nat)
       (pid sig : String) (t : Ticket) (pay : Payment),
       find_ticket w ticket_id user = some t →
       t.id = ticket_id →
       t.status = "PENDING" →
       w.payments ticket_id = some pay →
       pay.status = "FAILED" →
       sigOk pid pay.razorpay_order_id sig = true →
       (verify_booking_payment sigOk w ticket_id user pid pay.razorpay_order_id sig).2 =
         .ok ({ pay with razorpay_payment_id := some pid, razorpay_signature := some sig, status := "PAID" }) ∧
       (verify_booking_payment sigOk w ticket_id user pid pay.razorpay_order_id sig).1.payments
           ticket_id =
         some ({ pay with razorpay_payment_id := some pid, razorpay_signature := some sig, status := "PAID" })) := by
  refine ⟨?_, ?_, ?_, ?_⟩
  · intro sigOk w ticket_id user pid oid sig t pay hf hp hpaid
    unfold verify_booking_payment
    simp only [hf, hp, if_pos hpaid]
  · intro w ticket_id user t new_order_id hf hb
    unfold create_booking_razorpay_order
    have : t.status ≠ "PENDING" := by rw [hb]; decide
    simp only [hf, if_pos this]
  · intro w ticket_id user t pay new_order_id hf hpend hp hfail
    unfold create_booking_razorpay_order
    simp only [hf, hp, if_neg (not_not_intro hpend)]
  · intro sigOk w ticket_id user pid sig t pay hf hid hpend hp hfail hsg
    subst hid
    have hnp : ¬ (pay.status = "PAID") := by rw [hfail]; decide
    have hno : ¬ (pay.razorpay_order_id ≠ pay.razorpay_order_id) := not_not_intro rfl
    have hns : ¬ ((!(sigOk pid pay.razorpay_order_id sig)) = true) := by simp [hsg]
    have hfsp : find_ticket
        (set_payment w t.id
          ({ pay with razorpay_payment_id := some pid, razorpay_signature := some sig, status := "PAID" }))
        t.id user = some t := by
      rw [find_ticket_set_payment]; exact hf
    have hbk : ¬ (t.status = "BOOKED") := by rw [hpend]; decide
    rcases hc : confirm_ticket_booking
        (set_payment w t.id
          ({ pay with razorpay_payment_id := some pid, razorpay_signature := some sig, status := "PAID" }))
        t.id user with ⟨w2, e | t2⟩
    · exfalso
      unfold confirm_ticket_booking at hc
      simp only [hfsp, if_neg hbk, if_neg (not_not_intro hpend)] at hc
      simp at hc
    · have hpay2 : w2.payments t.id =
          some ({ pay with razorpay_payment_id := some pid, razorpay_signature := some sig, status := "PAID" }) := by
        have hcp := confirm_payments
          (set_payment w t.id
            ({ pay with razorpay_payment_id := some pid, razorpay_signature := some sig, status := "PAID" }))
          t.id user
        rw [hc] at hcp
        rw [show w2.payments =
            (set_payment w t.id
              ({ pay with razorpay_payment_id := some pid, razorpay_signature := some sig, status := "PAID" })).payments from hcp]
        simp [set_payment]
      constructor
      · unfold verify_booking_payment
        simp only [hf, hp, if_neg hnp, if_neg hno, if_neg hns, hc]
      · unfold verify_booking_payment
        simp only [hf, hp, if_neg hnp, if_neg hno, if_neg hns, hc]
        exact hpay2

/-- Witness for C8 (amended): on the counterexample world, re-creating the
order resets the FAILED payment to CREATED. -/
theorem claim8_amended_witness :
    (find_ticket c8_world 1 1 = some c2_book_ticket ∧
     c2_book_ticket.status = "PENDING" ∧
     c8_world.payments 1 = some c8_failed ∧
     c8_failed.status = "FAILED") ∧
    create_booking_razorpay_order c8_world 1 1 ("ord2") =
      (set_payment c8_world 1
        ({ c8_failed with razorpay_order_id := "ord2", amount := c2_book_ticket.total_price, status := "CREATED" }),
       .ok ({ c8_failed with razorpay_order_id := "ord2", amount := c2_book_ticket.total_price, status := "CREATED" })) :=
  ⟨⟨by decide, by decide, by decide, by decide⟩,
   claim8_amended.2.2.1 c8_world 1 1 c2_book_ticket c8_failed ("ord2")
     (by decide) (by decide) (by decide) (by decide)⟩

/-! ## C3 — booking-close cutoff at reservation time -/

/-- World for the C3 counterexample: the show starts 1560 seconds
(26 minutes) after `now = 10000`, inside the 30-minute cutoff, and seat
A1 holds a fresh, valid lock of user 1 taken at `now`. -/
def c3_world : World :=
  { show_row := { show_time := 11560, price_per_seat := 150 }
    seats := [{ seat_code := "A1", is_booked := false, locked_by := some 1, locked_at := some 10000 }]
    tickets := (fun _ => none)
    payments := (fun _ => none)
    next_ticket_id := 1 }

/-- C3 counterexample: at 26 minutes before showtime — inside the
30-minute window, as witnessed by the first conjunct, and exactly where
`lock_seats` would refuse with BookingClosed — `create_ticket_pending`
nevertheless succeeds for a caller holding valid unexpired locks: it
performs no booking-close check of its own. -/
theorem claim3_counterexample :
    c3_world.show_row.show_time < 10000 + BOOKING_CLOSE_MINS * 60 ∧
    (create_ticket_pending 1 c3_world ["A1"] 10000).2 =
      .ok ({ id := 1, user := 1, seat_codes := ["A1"], total_price := 150, status := "PENDING", is_transferred := false }) ∧
    (lock_seats 1 c3_world ["A1"] 10000).2 = .error .bookingClosed := by decide

/-- C3 (amended): the 30-minute cutoff is enforced only at
lock-acquisition time — `lock_seats` rejects with BookingClosed whenever
`show.startTime < now + 30min` (given a non-empty request) — while
`create_ticket_pending` performs no cutoff check at all: its result does
not depend on `show.startTime` in any way. -/
theorem claim3_amended :
    (∀ (user : Nat) (w : World) (seat_codes : List String) (now : Int),
       seat_codes.isEmpty = false →
       w.show_row.show_time < now + BOOKING_CLOSE_MINS * 60 →
       lock_seats user w seat_codes now = (w, .error .bookingClosed)) ∧
    (∀ (user : Nat) (w : World) (seat_codes : List String) (now tnew : Int),
       (create_ticket_pending user
          ({ w with show_row := { w.show_row with show_time := tnew } }) seat_codes now).2 =
       (create_ticket_pending user w seat_codes now).2) := by
  constructor
  · intro user w seat_codes now hne hcut
    simp [lock_seats, hne, hcut]
  · intro user w seat_codes now tnew
    simp only [create_ticket_pending]
    split
    · rfl
    · split
      · rfl
      · split <;> rfl

/-- Witness for C3 (amended): `lock_seats` rejects on the counterexample
world, and the reservation result there is indifferent to moving the show
time far into the future. -/
theorem claim3_amended_witness :
    ((["A1"] : List String).isEmpty = false ∧
     c3_world.show_row.show_time < 10000 + BOOKING_CLOSE_MINS * 60) ∧
    lock_seats 1 c3_world ["A1"] 10000 = (c3_world, .error .bookingClosed) ∧
    (create_ticket_pending 1
       ({ c3_world with show_row := { c3_world.show_row with show_time := 999999 } })
       ["A1"] 10000).2 =
      (create_ticket_pending 1 c3_world ["A1"] 10000).2 :=
  ⟨⟨by decide, by decide⟩,
   claim3_amended.1 1 c3_world ["A1"] 10000 (by decide) (by decide),
   claim3_amended.2 1 c3_world ["A1"] 10000 999999⟩

/-! ## C4 — confirmation of a booking -/

/-- C4: `confirm_ticket_booking` is idempotent on a BOOKED ticket
(returns it with the state untouched), fails with NotPayable on a ticket
that is neither BOOKED nor PENDING (state untouched), and on a PENDING
ticket books every bound seat (setting `is_booked` and clearing the lock
fields), leaves all other seats and tickets untouched, and sets the
ticket's status to BOOKED. -/
theorem claim4_confirm_booking (w : World) (ticket_id user : Nat) (t : Ticket)
    (hfind : find_ticket w ticket_id user = some t) :
    (t.status = "BOOKED" → confirm_ticket_booking w ticket_id user = (w, .ok t)) ∧
    (t.status ≠ "BOOKED" → t.status ≠ "PENDING" →
       confirm_ticket_booking w ticket_id user = (w, .error .notPayable)) ∧
    (t.status = "PENDING" →
       (confirm_ticket_booking w ticket_id user).2 = .ok ({ t with status := "BOOKED" }) ∧
       (confirm_ticket_booking w ticket_id user).1.tickets ticket_id =
         some ({ t with status := "BOOKED" }) ∧
       (∀ i : Nat, i ≠ ticket_id →
          (confirm_ticket_booking w ticket_id user).1.tickets i = w.tickets i) ∧
       (confirm_ticket_booking w ticket_id user).1.payments = w.payments ∧
       (∀ s ∈ w.seats, t.seat_codes.contains s.seat_code = true →
          ({ s with is_booked := true, locked_by := none, locked_at := none } : Seat) ∈
            (confirm_ticket_booking w ticket_id user).1.seats) ∧
       (∀ s ∈ w.seats, t.seat_codes.contains s.seat_code = false →
          s ∈ (confirm_ticket_booking w ticket_id user).1.seats)) := by
  refine ⟨?_, ?_, ?_⟩
  · intro hb
    simp [confirm_ticket_booking, hfind, hb]
  · intro hb hp
    simp [confirm_ticket_booking, hfind, hb, hp]
  · intro hp
    have hb : t.status ≠ "BOOKED" := by
      rw [hp]; decide
    refine ⟨?_, ?_, ?_, ?_, ?_, ?_⟩
    · simp [confirm_ticket_booking, hfind, hb, hp]
    · simp [confirm_ticket_booking, hfind, hb, hp, set_ticket]
    · intro i hi
      simp [confirm_ticket_booking, hfind, hb, hp, set_ticket, hi]
    · simp [confirm_ticket_booking, hfind, hb, hp, set_ticket]
    · intro s hs hsel
      have hmem : s.seat_code ∈ t.seat_codes := by simpa using hsel
      simp [confirm_ticket_booking, hfind, hb, hp, set_ticket]
      exact ⟨s, hs, by simp [hmem]⟩
    · intro s hs hsel
      have hmem : s.seat_code ∉ t.seat_codes := by simpa using hsel
      simp [confirm_ticket_booking, hfind, hb, hp, set_ticket]
      exact ⟨s, hs, by simp [hmem]⟩

/-- Ticket fixture for the C4 witness: a PENDING one-seat ticket. -/
def c4_ticket : Ticket :=
  { id := 1, user := 1, seat_codes := ["A1"], total_price := 150, status := "PENDING", is_transferred := false }

/-- World fixture for the C4 witness. -/
def c4_world : World :=
  { show_row := { show_time := 100000, price_per_seat := 150 }
    seats := [{ seat_code := "A1", is_booked := false, locked_by := some 1, locked_at := some 500 }]
    tickets := (fun i => if i = 1 then some c4_ticket else none)
    payments := (fun _ => none)
    next_ticket_id := 2 }

/-- Witness for C4: confirming the PENDING fixture ticket books it. -/
theorem claim4_confirm_booking_witness :
    find_ticket c4_world 1 1 = some c4_ticket ∧
    (confirm_ticket_booking c4_world 1 1).2 = .ok ({ c4_ticket with status := "BOOKED" }) :=
  ⟨by decide,
   ((claim4_confirm_booking c4_world 1 1 c4_ticket (by decide)).2.2 (by decide)).1⟩

end TTAC
